import Mathlib

/-!
Verification of `Helper Scripts/convert_ipynb_to_txt.py`: a shallow embedding
of the notebook-to-text converter, followed by theorems settling the claims
about its rendering and batch behaviour.

The Python script reads a Jupyter notebook (JSON), renders each cell as a
plain-text block, and writes the blocks separated by a fixed 80-dash
separator.  The embedding below mirrors the script function by function:
`extract_text_from_cell`, `convert_notebook` (its pure rendering part),
`find_ipynb_files`, and the per-file loop of `main`.
-/

namespace IpynbToTxt

/-! ## Python string primitives used by the script -/

/-- Python whitespace characters recognised by `str.rstrip()`. -/
def pyIsSpace (c : Char) : Bool :=
  c = ' ' || c = '\t' || c = '\n' || c = '\r' || c = '\x0b' || c = '\x0c'

/-- Python `s.rstrip()`: drop trailing whitespace characters. -/
def pyRstrip (s : String) : String :=
  String.mk ((s.data.reverse.dropWhile pyIsSpace).reverse)

/-- Python `"".join(fragments)`: concatenation of a list of strings. -/
def pyConcat : List String → String
  | [] => ""
  | s :: rest => s ++ pyConcat rest

/-- Python `"\n".join(parts)`: parts joined by single newlines. -/
def joinNL : List String → String
  | [] => ""
  | [s] => s
  | s :: rest => s ++ "\n" ++ joinNL rest

/-! ## Data model

JSON values reaching the converter, restricted to the shapes the script
inspects.  `Option` models a key that is absent (or JSON `null`, where the
script treats both alike via `.get(...) or default`). -/

/-- A JSON value found under an output's `data` key.  The script only cares
whether it is a dict (mapping MIME type to a list of text fragments); other
shapes occur in malformed notebooks and are modelled by `pstr`/`plist`. -/
inductive PyData where
  | pdict : List (String × List String) → PyData
  | pstr : String → PyData
  | plist : List String → PyData
deriving DecidableEq

/-- Python truthiness of a `PyData` value: dicts, strings and lists are
falsy exactly when empty. -/
def pyTruthyData : PyData → Bool
  | .pdict entries => !entries.isEmpty
  | .pstr s => !s.isEmpty
  | .plist xs => !xs.isEmpty

/-- One element of a code cell's `outputs` array. -/
structure Output where
  output_type : Option String
  text : Option (List String)
  data : Option PyData
  traceback : Option (List String)
deriving DecidableEq

/-- One element of the notebook's `cells` array.  `source` and `outputs` are
`Option` because the script defaults them with `cell.get(key, []) or []`. -/
structure Cell where
  cell_type : Option String
  source : Option (List String)
  outputs : Option (List Output)
deriving DecidableEq

/-- The notebook document.  `kernelspec` is the value of
`nb.get("metadata", \x7b\x7d).get("kernelspec", \x7b\x7d)`, modelled as an
optional string-to-string mapping (`none` when `metadata` or `kernelspec`
is absent); `cells` is `nb.get("cells", []) or []` before defaulting. -/
structure Notebook where
  kernelspec : Option (List (String × String))
  cells : Option (List Cell)

/-- Python `repr` of a string (single-quoted; quoting of special characters
inside the string is not modelled, the script only prints kernelspecs). -/
def pyReprStr (s : String) : String := "\x27" ++ s ++ "\x27"

/-- Python `repr` of a string-to-string dict, as printed by an f-string:
`\x7b'k': 'v', ...\x7d`, and `\x7b\x7d` when empty. -/
def pyReprDict (entries : List (String × String)) : String :=
  "\x7b" ++
    String.intercalate ", "
      (entries.map fun p => pyReprStr p.1 ++ ": " ++ pyReprStr p.2) ++
  "\x7d"

/-! ## The cell renderer (`extract_text_from_cell`)

The Python loop body over `outputs` appends, for output number `oi`:
a line `[oi] output_type: <out_type>`; the rstripped join of `text` when
`text` is truthy; the rstripped join of `data["text/plain"]` when `data`
is a dict containing that key; and each rstripped traceback line when
`out_type == "error"`. -/

/-- The `[<oi>] output_type: <type>` line; a missing `output_type` defaults
to the string `"output"` (`out.get("output_type", "output")`). -/
def outTypeLine (oi : Nat) (out : Output) : String :=
  "[" ++ toString oi ++ "] output_type: " ++ out.output_type.getD "output"

/-- Lines contributed by the `text` field: `text = out.get("text")` followed
by `if text:` — a line is appended only when `text` is truthy, i.e. present
and a non-empty list. -/
def textLinesOf (out : Output) : List String :=
  match out.text with
  | some t => if t.isEmpty then [] else [pyRstrip (pyConcat t)]
  | none => []

/-- Lines contributed by `data`: `data = out.get("data") or \x7b\x7d`, then
`isinstance(data, dict)` and `"text/plain" in data`. -/
def dataLinesOf (out : Output) : List String :=
  let data : PyData :=
    match out.data with
    | some d => if pyTruthyData d then d else .pdict []
    | none => .pdict []
  match data with
  | .pdict entries =>
    match entries.lookup "text/plain" with
    | some fragments => [pyRstrip (pyConcat fragments)]
    | none => []
  | _ => []

/-- Lines contributed by `traceback` when the output type is `"error"`:
`tb = out.get("traceback") or []`, each line rstripped. -/
def tbLinesOf (out : Output) : List String :=
  if out.output_type.getD "output" = "error" then
    (out.traceback.getD []).map pyRstrip
  else []

/-- All lines the loop body appends to `out_lines` for output number `oi`. -/
def renderOutput (oi : Nat) (out : Output) : List String :=
  outTypeLine oi out :: (textLinesOf out ++ dataLinesOf out ++ tbLinesOf out)

/-- The whole `for oi, out in enumerate(outputs, start=1)` loop. -/
def renderOutputsFrom : Nat → List Output → List String
  | _, [] => []
  | oi, out :: rest => renderOutput oi out ++ renderOutputsFrom (oi + 1) rest

/-- `extract_text_from_cell(cell)`: the text block for one cell.  `parts`
starts with `Cell type: <cell_type>` (default `"unknown"`), then branches on
the cell type, and the result is `"\n".join(parts)`. -/
def extract_text_from_cell (cell : Cell) : String :=
  let cell_type := cell.cell_type.getD "unknown"
  let source := pyConcat (cell.source.getD [])
  if cell_type = "markdown" then
    joinNL ["Cell type: " ++ cell_type, "-- Markdown --", pyRstrip source]
  else if cell_type = "code" then
    let outputs := cell.outputs.getD []
    if outputs.isEmpty then
      joinNL ["Cell type: " ++ cell_type, "-- Code --", pyRstrip source]
    else
      joinNL ["Cell type: " ++ cell_type, "-- Code --", pyRstrip source,
        joinNL ("-- Outputs --" :: renderOutputsFrom 1 outputs)]
  else
    joinNL ["Cell type: " ++ cell_type, pyRstrip source]

/-! ## The document renderer (`convert_notebook`)

The writing side of `convert_notebook` emits the header, the separator, and
then `Cell <i>\n`, the cell block, and the separator for each cell.  We model
the concatenation of everything written to the output file. -/

/-- `CELL_SEPARATOR = "\n" + ("-" * 80) + "\n"`. -/
def CELL_SEPARATOR : String := "\n" ++ String.mk (List.replicate 80 '-') ++ "\n"

/-- The two header lines written before the first separator. -/
def notebookHeader (baseName : String) (nb : Notebook) : String :=
  "Notebook: " ++ baseName ++ "\n" ++
  "Kernelspec: " ++ pyReprDict (nb.kernelspec.getD []) ++ "\n"

/-- The per-cell loop of `convert_notebook`, starting at index `i`:
writes `Cell <i>\n`, the cell's block, and the separator, for each cell. -/
def convertCells : Nat → List Cell → String
  | _, [] => ""
  | i, c :: rest =>
    "Cell " ++ toString i ++ "\n" ++ extract_text_from_cell c ++
      CELL_SEPARATOR ++ convertCells (i + 1) rest

/-- The full text `convert_notebook` writes for a notebook whose input file
has base name `baseName`. -/
def convert_notebook (baseName : String) (nb : Notebook) : String :=
  notebookHeader baseName nb ++ CELL_SEPARATOR ++
    convertCells 1 (nb.cells.getD [])

/-! ## File discovery (`find_ipynb_files`) and the batch loop of `main`

The filesystem is abstracted into a record of pure query functions; the
script's `os.path` calls become fields of `FS`.  The per-file loop of
`main` is modelled by its observable behaviour: the message printed for
each file and the exit code. -/

/-- The filesystem facts `find_ipynb_files` queries. -/
structure FS where
  isFile : String → Bool
  isDir : String → Bool
  listdir : String → List String

/-- Insert a string into a sorted list (helper for `sortStrings`). -/
def insertSorted (s : String) : List String → List String
  | [] => [s]
  | t :: rest => if s ≤ t then s :: t :: rest else t :: insertSorted s rest

/-- Python `sorted` on strings (lexicographic insertion sort). -/
def sortStrings : List String → List String
  | [] => []
  | s :: rest => insertSorted s (sortStrings rest)

/-- `name.lower().endswith(".ipynb")`: lower-case the characters (ASCII
lowering suffices for this suffix test) and check the `.ipynb` suffix. -/
def isIpynbName (name : String) : Bool :=
  (".ipynb".data).isSuffixOf (name.data.map Char.toLower)

/-- `os.path.join(path, name)` (POSIX flavour; the claims never depend on
the separator character). -/
def pathJoin (dir name : String) : String := dir ++ "/" ++ name

/-- `find_ipynb_files(path)`: the path itself when it is a `.ipynb` file,
the sorted `.ipynb` children when it is a directory, nothing otherwise. -/
def find_ipynb_files (fs : FS) (path : String) : List String :=
  if fs.isFile path then
    if isIpynbName path then [path] else []
  else if fs.isDir path then
    (sortStrings (fs.listdir path)).filterMap fun name =>
      if isIpynbName name then some (pathJoin path name) else none
  else []

/-- The environment the per-file loop runs in: the outcome of the
`os.makedirs(target_dir, exist_ok=True)` call (the target directory is the
same resolved `outdir` on every iteration, so one outcome value; this call
sits inside the loop but OUTSIDE the try/except, so `Except.error e`
models an uncaught exception); the outcome of
`convert_notebook(ipynb, txt_path)` for each input (`Except.error msg`
models a raised exception, `str(e) = msg`, caught by the try/except);
whether the derived output file already exists; and the derived output
path itself. -/
structure Env where
  makedirsResult : Except String Unit
  convertResult : String → Except String Unit
  txtExists : String → Bool
  txtPath : String → String

/-- The message one loop iteration prints once `os.makedirs` has
succeeded: the skip notice, the converted notice, or the caught-failure
report. -/
def process_msg (env : Env) (overwrite : Bool) (ipynb : String) : String :=
  let txt := env.txtPath ipynb
  if env.txtExists txt && !overwrite then
    "Skipping existing file (use --overwrite to replace): " ++ txt
  else
    match env.convertResult ipynb with
    | Except.ok _ => "Converted: " ++ ipynb ++ " -> " ++ txt
    | Except.error e => "Failed to convert " ++ ipynb ++ ": " ++ e

/-- One iteration of the `for ipynb in paths` loop: `os.makedirs` runs
first and may raise (uncaught, `Except.error`); otherwise the iteration
completes and prints a message. -/
def process_one (env : Env) (overwrite : Bool) (ipynb : String) :
    Except String String :=
  match env.makedirsResult with
  | Except.error e => Except.error e
  | Except.ok _ => Except.ok (process_msg env overwrite ipynb)

/-- What a run of the per-file loop observably did: the messages printed,
the files whose iteration started (every write the script performs happens
inside an iteration, after its `makedirs`), and the uncaught exception that
aborted the loop, if any. -/
structure BatchResult where
  messages : List String
  iterated : List String
  exc : Option String
deriving DecidableEq

/-- The whole loop over the discovered files, in order; an uncaught
exception in an iteration stops the loop, leaving later files
unprocessed. -/
def run_batch (env : Env) (overwrite : Bool) : List String → BatchResult
  | [] => BatchResult.mk [] [] none
  | p :: rest =>
    match process_one env overwrite p with
    | Except.error e => BatchResult.mk [] [p] (some e)
    | Except.ok msg =>
      let r := run_batch env overwrite rest
      BatchResult.mk (msg :: r.messages) (p :: r.iterated) r.exc

/-- `main`: discovery, the empty-discovery early return with exit code 2,
otherwise the loop; exit code 0 when the loop completes, and exit code 1
when an uncaught exception propagates out of `main` (the interpreter then
exits 1).  Returns the exit code, the printed messages, and the files the
loop iterated (empty third component: nothing was written). -/
def main_fn (fs : FS) (env : Env) (pathArg : String) (overwrite : Bool) :
    Nat × List String × List String :=
  let paths := find_ipynb_files fs pathArg
  if paths.isEmpty then
    (2, ["No .ipynb files found at: " ++ pathArg], [])
  else
    let r := run_batch env overwrite paths
    match r.exc with
    | some _ => (1, r.messages, r.iterated)
    | none => (0, r.messages, r.iterated)

/-! ## Spec-side definitions

These follow the wording of the specification (§4.1, §4.2, §6), to be
compared with the definitions translated from the source. -/

/-- Spec §6: the separator is a newline, eighty `-` characters, and a
newline. -/
def spec_separator : String := "\n" ++ String.mk (List.replicate 80 '-') ++ "\n"

/-- Spec §4.2 item 1: `Notebook: <display name>`, then a line rendering the
`kernelspec` value from metadata (empty mapping if absent), then the fixed
separator. -/
def spec_header (displayName : String) (nb : Notebook) : String :=
  "Notebook: " ++ displayName ++ "\n" ++
  "Kernelspec: " ++ pyReprDict (nb.kernelspec.getD []) ++ "\n" ++
  spec_separator

/-- Spec §4.2 item 2: for each cell, in order, 1-indexed: a line
`Cell <index>`, the cell's rendered block, then the fixed separator. -/
def spec_body : Nat → List Cell → String
  | _, [] => ""
  | n, c :: rest =>
    "Cell " ++ toString n ++ "\n" ++ extract_text_from_cell c ++
      spec_separator ++ spec_body (n + 1) rest

/-- Spec §4.2: the final text, header then per-cell blocks. -/
def spec_render (displayName : String) (nb : Notebook) : String :=
  spec_header displayName nb ++ spec_body 1 (nb.cells.getD [])

/-- Spec (amended as the code forces): the trimmed `text` concatenation
appears when `text` is present and a non-empty sequence. -/
def spec_text_lines (out : Output) : List String :=
  match out.text with
  | some t => if t = [] then [] else [pyRstrip (pyConcat t)]
  | none => []

/-- Spec: the trimmed `text/plain` entry appears when `data` is present,
is a mapping, and contains that key. -/
def spec_data_lines (out : Output) : List String :=
  match out.data with
  | some (PyData.pdict entries) =>
    (match entries.lookup "text/plain" with
     | some fragments => [pyRstrip (pyConcat fragments)]
     | none => [])
  | _ => []

/-- Spec: each right-trimmed `traceback` line appears when the output type
is `error`. -/
def spec_tb_lines (out : Output) : List String :=
  if out.output_type.getD "output" = "error" then
    (out.traceback.getD []).map pyRstrip
  else []

/-- Lines the (amended) spec prescribes for one output: the index line,
then the text, data, and traceback subsections in that order. -/
def spec_output_lines (oi : Nat) (out : Output) : List String :=
  ("[" ++ toString oi ++ "] output_type: " ++ out.output_type.getD "output") ::
    (spec_text_lines out ++ spec_data_lines out ++ spec_tb_lines out)

/-- Spec-side outputs section body: the per-output line groups, outputs
1-indexed in order. -/
def spec_outputs_from : Nat → List Output → List String
  | _, [] => []
  | oi, out :: rest => spec_output_lines oi out ++ spec_outputs_from (oi + 1) rest

/-- Spec §4.1 code branch (amended as the code forces): `Cell type: code`,
the label `-- Code --`, the right-trimmed concatenated source, and — iff
`outputs` is non-empty — an `-- Outputs --` section of per-output line
groups. -/
def spec_code_block (cell : Cell) : String :=
  let src := pyRstrip (pyConcat (cell.source.getD []))
  let outputs := cell.outputs.getD []
  if outputs.isEmpty then
    joinNL ["Cell type: code", "-- Code --", src]
  else
    joinNL ["Cell type: code", "-- Code --", src,
      joinNL ("-- Outputs --" :: spec_outputs_from 1 outputs)]

/-! ## Helper lemmas -/

theorem sep_eq_spec : CELL_SEPARATOR = spec_separator := rfl

theorem convertCells_eq_spec_body (cs : List Cell) :
    ∀ n, convertCells n cs = spec_body n cs := by
  induction cs with
  | nil => intro n; rfl
  | cons c rest ih =>
    intro n
    simp only [convertCells, spec_body, sep_eq_spec, ih]

theorem convertCells_terminates (cs : List Cell) :
    ∀ i, cs ≠ [] → ∃ t, convertCells i cs = t ++ CELL_SEPARATOR := by
  induction cs with
  | nil => intro i h; exact absurd rfl h
  | cons c rest ih =>
    intro i _
    cases rest with
    | nil =>
      refine ⟨"Cell " ++ toString i ++ "\n" ++ extract_text_from_cell c, ?_⟩
      simp [convertCells, String.append_empty, String.append_assoc]
    | cons c2 rest2 =>
      obtain ⟨t, ht⟩ := ih (i + 1) (by simp)
      refine ⟨"Cell " ++ toString i ++ "\n" ++ extract_text_from_cell c ++
        CELL_SEPARATOR ++ t, ?_⟩
      have step : convertCells i (c :: c2 :: rest2) =
          "Cell " ++ toString i ++ "\n" ++ extract_text_from_cell c ++
            CELL_SEPARATOR ++ convertCells (i + 1) (c2 :: rest2) := rfl
      rw [step, ht]
      simp [String.append_assoc]

/-- The per-cell parts of the output, as a list of blocks: the loop body of
`convert_notebook` for cells numbered from `i`. -/
def cellBlocksFrom : Nat → List Cell → List String
  | _, [] => []
  | i, c :: rest =>
    ("Cell " ++ toString i ++ "\n" ++ extract_text_from_cell c ++ CELL_SEPARATOR) ::
      cellBlocksFrom (i + 1) rest

theorem convertCells_eq_concat_blocks (cs : List Cell) :
    ∀ i, convertCells i cs = pyConcat (cellBlocksFrom i cs) := by
  induction cs with
  | nil => intro i; rfl
  | cons c rest ih =>
    intro i
    simp [convertCells, cellBlocksFrom, pyConcat, ih, String.append_assoc]

theorem cellBlocksFrom_length (cs : List Cell) :
    ∀ i, (cellBlocksFrom i cs).length = cs.length := by
  induction cs with
  | nil => intro i; rfl
  | cons c rest ih => intro i; simp [cellBlocksFrom, ih]

theorem cellBlocksFrom_get? (cs : List Cell) :
    ∀ i n, (cellBlocksFrom i cs).get? n =
      (cs.get? n).map fun c =>
        "Cell " ++ toString (i + n) ++ "\n" ++ extract_text_from_cell c ++
          CELL_SEPARATOR := by
  induction cs with
  | nil => intro i n; simp [cellBlocksFrom]
  | cons c rest ih =>
    intro i n
    cases n with
    | zero => simp [cellBlocksFrom]
    | succ n =>
      have hidx : i + (n + 1) = (i + 1) + n := by omega
      simp only [cellBlocksFrom, List.get?_cons_succ, hidx, ih]

/-! ## Claims -/

/-- C1: for every well-formed notebook document, the rendered output text
equals a header line `Notebook: <base name>`, a line rendering the
kernelspec value from metadata (an empty mapping if absent), the fixed
separator (a newline, eighty dashes, a newline), then for each cell in
input order (1-indexed) the line `Cell N`, the cell's rendered block, and
the separator again; so the text is terminated by a final separator. -/
theorem render_matches_spec_structure (name : String) (nb : Notebook) :
    convert_notebook name nb = spec_render name nb ∧
    ∃ t, convert_notebook name nb = t ++ CELL_SEPARATOR := by
  constructor
  · simp only [convert_notebook, spec_render, notebookHeader, spec_header,
      convertCells_eq_spec_body, sep_eq_spec, String.append_assoc]
  · cases hcs : nb.cells.getD [] with
    | nil =>
      exact ⟨notebookHeader name nb, by
        simp [convert_notebook, hcs, convertCells, String.append_empty]⟩
    | cons c rest =>
      obtain ⟨t, ht⟩ := convertCells_terminates (c :: rest) 1 (by simp)
      exact ⟨notebookHeader name nb ++ CELL_SEPARATOR ++ t, by
        simp [convert_notebook, hcs, ht, String.append_assoc]⟩

/-- C2: the output decomposes into the header followed by one block per
input cell: the number of `Cell N` blocks equals the number of cells, and
the `n`-th block (0-based) carries the header index `n + 1` — so indices
are strictly increasing from 1 — followed by the rendering of the `n`-th
input cell; no cell is skipped, reordered, or deduplicated. -/
theorem cell_count_and_order (name : String) (nb : Notebook) :
    convert_notebook name nb =
      notebookHeader name nb ++ CELL_SEPARATOR ++
        pyConcat (cellBlocksFrom 1 (nb.cells.getD [])) ∧
    (cellBlocksFrom 1 (nb.cells.getD [])).length = (nb.cells.getD []).length ∧
    ∀ n, (cellBlocksFrom 1 (nb.cells.getD [])).get? n =
      ((nb.cells.getD []).get? n).map fun c =>
        "Cell " ++ toString (n + 1) ++ "\n" ++ extract_text_from_cell c ++
          CELL_SEPARATOR := by
  refine ⟨?_, cellBlocksFrom_length _ 1, ?_⟩
  · simp [convert_notebook, convertCells_eq_concat_blocks]
  · intro n
    rw [cellBlocksFrom_get? _ 1 n, Nat.add_comm 1 n]

theorem joinNL_two (a b : String) : joinNL [a, b] = a ++ "\n" ++ b := by
  simp [joinNL, String.append_assoc]

theorem joinNL_three (a b c : String) :
    joinNL [a, b, c] = a ++ "\n" ++ b ++ "\n" ++ c := by
  simp [joinNL, String.append_assoc]

/-- C3 (amended): for every output, the rendered section carries the line
`pyRstrip (pyConcat t)` exactly when `text` is present and a non-empty
sequence; when `text` is absent, null, or an empty sequence, no text line
is emitted (the section goes straight from the index line to the data and
traceback lines). -/
theorem text_line_iff_nonempty (oi : Nat) (out : Output) :
    (∀ t, out.text = some t → t ≠ [] →
      renderOutput oi out =
        outTypeLine oi out :: pyRstrip (pyConcat t) ::
          (dataLinesOf out ++ tbLinesOf out)) ∧
    ((out.text = none ∨ out.text = some []) →
      renderOutput oi out =
        outTypeLine oi out :: (dataLinesOf out ++ tbLinesOf out)) := by
  constructor
  · intro t ht hne
    cases t with
    | nil => exact absurd rfl hne
    | cons s rest => simp [renderOutput, textLinesOf, ht]
  · rintro (h | h) <;> simp [renderOutput, textLinesOf, h]

theorem text_line_iff_nonempty_witness :
    renderOutput 1 (Output.mk (some "stream") (some ["1\n"]) none none) =
      ["[1] output_type: stream", "1"] := by
  have h := (text_line_iff_nonempty 1
      (Output.mk (some "stream") (some ["1\n"]) none none)).1 ["1\n"] rfl (by decide)
  exact h.trans (by decide)

/-- C3 counterexample: the claim as stated demands, for an output whose
`text` is the empty sequence, a line holding the trimmed concatenation of
its fragments (the empty string); the code emits no such line, so the
rendered section is the index line alone and contains no empty line. -/
theorem text_line_empty_seq_cex :
    renderOutput 1 (Output.mk (some "stream") (some []) none none) =
      ["[1] output_type: stream"] ∧
    ¬ ("" ∈ renderOutput 1 (Output.mk (some "stream") (some []) none none)) := by
  constructor
  · decide
  · decide

/-- C5: for every markdown cell, the rendered block is the line
`Cell type: markdown`, then the label `-- Markdown --`, then the
concatenated source fragments with trailing whitespace trimmed; the
`["# Title\n", "body"]` example renders with no trailing blank line. -/
theorem markdown_cell_block (cell : Cell) (h : cell.cell_type = some "markdown") :
    extract_text_from_cell cell =
      "Cell type: markdown\n-- Markdown --\n" ++
        pyRstrip (pyConcat (cell.source.getD [])) ∧
    extract_text_from_cell
        (Cell.mk (some "markdown") (some ["# Title\n", "body"]) none) =
      "Cell type: markdown\n-- Markdown --\n# Title\nbody" := by
  constructor
  · have e1 : extract_text_from_cell cell =
        joinNL ["Cell type: " ++ "markdown", "-- Markdown --",
          pyRstrip (pyConcat (cell.source.getD []))] := by
      simp [extract_text_from_cell, h]
    rw [e1, joinNL_three]
    simp
  · decide

theorem markdown_cell_block_witness :
    extract_text_from_cell (Cell.mk (some "markdown") (some ["hi  "]) none) =
      "Cell type: markdown\n-- Markdown --\n" ++
        pyRstrip (pyConcat ((some ["hi  "] : Option (List String)).getD [])) :=
  (markdown_cell_block (Cell.mk (some "markdown") (some ["hi  "]) none) rfl).1

/-- C9: a cell whose `cell_type` key is absent renders with first line
`Cell type: unknown`, and an output whose `output_type` key is absent gets
the index line `[<oi>] output_type: output`. -/
theorem missing_types_default (cell : Cell) (out : Output) (oi : Nat)
    (hc : cell.cell_type = none) (ho : out.output_type = none) :
    (∃ rest, extract_text_from_cell cell = "Cell type: unknown\n" ++ rest) ∧
    renderOutput oi out =
      ("[" ++ toString oi ++ "] output_type: output") ::
        (textLinesOf out ++ dataLinesOf out ++ tbLinesOf out) := by
  constructor
  · refine ⟨pyRstrip (pyConcat (cell.source.getD [])), ?_⟩
    have e1 : extract_text_from_cell cell =
        joinNL ["Cell type: " ++ "unknown",
          pyRstrip (pyConcat (cell.source.getD []))] := by
      simp [extract_text_from_cell, hc]
    rw [e1, joinNL_two]
    simp
  · simp only [renderOutput, outTypeLine, ho, Option.getD_none]
    simp [String.append_assoc]

theorem missing_types_default_witness :
    (∃ rest, extract_text_from_cell (Cell.mk none (some ["hello "]) none) =
      "Cell type: unknown\n" ++ rest) ∧
    renderOutput 7 (Output.mk none none none none) =
      ("[" ++ toString 7 ++ "] output_type: output") ::
        (textLinesOf (Output.mk none none none none) ++
          dataLinesOf (Output.mk none none none none) ++
          tbLinesOf (Output.mk none none none none)) :=
  missing_types_default (Cell.mk none (some ["hello "]) none)
    (Output.mk none none none none) 7 rfl rfl

/-- C10: an output whose `data` field is present but is not a mapping (a
string or a list) renders exactly as if `data` were absent: rendering
succeeds and no data line is emitted. -/
theorem nonmapping_data_ignored (oi : Nat) (out : Output)
    (h : (∃ s, out.data = some (PyData.pstr s)) ∨
         (∃ xs, out.data = some (PyData.plist xs))) :
    renderOutput oi out =
      renderOutput oi (Output.mk out.output_type out.text none out.traceback) := by
  have hd : dataLinesOf out = [] := by
    obtain ⟨s, hs⟩ | ⟨xs, hx⟩ := h
    · simp only [dataLinesOf, hs]
      by_cases h1 : pyTruthyData (PyData.pstr s) <;> simp [h1]
    · simp only [dataLinesOf, hx]
      by_cases h1 : pyTruthyData (PyData.plist xs) <;> simp [h1]
  have hd2 : dataLinesOf (Output.mk out.output_type out.text none out.traceback) = [] := by
    simp [dataLinesOf]
  simp [renderOutput, outTypeLine, textLinesOf, tbLinesOf, hd, hd2]

theorem nonmapping_data_ignored_witness :
    renderOutput 1 (Output.mk (some "display_data") none (some (PyData.pstr "oops")) none) =
      renderOutput 1 (Output.mk (some "display_data") none none none) :=
  nonmapping_data_ignored 1
    (Output.mk (some "display_data") none (some (PyData.pstr "oops")) none)
    (Or.inl ⟨"oops", rfl⟩)

theorem textLinesOf_eq_spec (out : Output) :
    textLinesOf out = spec_text_lines out := by
  cases h : out.text with
  | none => simp [textLinesOf, spec_text_lines, h]
  | some t => cases t <;> simp [textLinesOf, spec_text_lines, h]

theorem dataLinesOf_eq_spec (out : Output) :
    dataLinesOf out = spec_data_lines out := by
  cases h : out.data with
  | none => simp [dataLinesOf, spec_data_lines, h]
  | some d =>
    cases d with
    | pdict entries =>
      cases entries <;> simp [dataLinesOf, spec_data_lines, h, pyTruthyData]
    | pstr s =>
      simp only [dataLinesOf, spec_data_lines, h]
      by_cases h1 : pyTruthyData (PyData.pstr s) <;> simp [h1]
    | plist xs =>
      simp only [dataLinesOf, spec_data_lines, h]
      by_cases h1 : pyTruthyData (PyData.plist xs) <;> simp [h1]

theorem tbLinesOf_eq_spec (out : Output) : tbLinesOf out = spec_tb_lines out := rfl

theorem renderOutput_eq_spec (oi : Nat) (out : Output) :
    renderOutput oi out = spec_output_lines oi out := by
  simp [renderOutput, spec_output_lines, outTypeLine, textLinesOf_eq_spec,
    dataLinesOf_eq_spec, tbLinesOf_eq_spec]

theorem renderOutputsFrom_eq_spec (outs : List Output) :
    ∀ oi, renderOutputsFrom oi outs = spec_outputs_from oi outs := by
  induction outs with
  | nil => intro oi; rfl
  | cons o rest ih =>
    intro oi
    simp [renderOutputsFrom, spec_outputs_from, renderOutput_eq_spec, ih]

/-- C4 (amended): for every code cell, the rendered block is
`Cell type: code`, the label `-- Code --`, the right-trimmed concatenated
source, and — if and only if `outputs` is non-empty — an `-- Outputs --`
section whose 1-indexed per-output line groups are the index line, the
trimmed `text` concatenation when `text` is present and non-empty, the
trimmed `text/plain` entry of `data` when present in a mapping, and each
right-trimmed `traceback` line when the output type is `error`; the
`print(1)` example renders as the spec's test vector states. -/
theorem code_cell_block (cell : Cell) (h : cell.cell_type = some "code") :
    extract_text_from_cell cell = spec_code_block cell ∧
    extract_text_from_cell
        (Cell.mk (some "code") (some ["print(1)"])
          (some [Output.mk (some "stream") (some ["1\n"]) none none])) =
      "Cell type: code\n-- Code --\nprint(1)\n-- Outputs --\n[1] output_type: stream\n1" := by
  constructor
  · simp only [extract_text_from_cell, spec_code_block, h, Option.getD_some,
      renderOutputsFrom_eq_spec]
    simp
  · decide

theorem code_cell_block_witness :
    extract_text_from_cell (Cell.mk (some "code") (some ["x=1\n"]) none) =
      spec_code_block (Cell.mk (some "code") (some ["x=1\n"]) none) :=
  (code_cell_block (Cell.mk (some "code") (some ["x=1\n"]) none) rfl).1

/-- C4 counterexample: for a code cell with source `x=1` and one output of
type `stream` whose `text` is the empty sequence, the claim as stated
mandates a line holding the trimmed text concatenation (the empty string)
after the index line — the block would be the second string below; the
code renders the first string, without that line, and the two differ. -/
theorem code_cell_block_cex :
    extract_text_from_cell
        (Cell.mk (some "code") (some ["x=1"])
          (some [Output.mk (some "stream") (some []) none none])) =
      "Cell type: code\n-- Code --\nx=1\n-- Outputs --\n[1] output_type: stream" ∧
    ("Cell type: code\n-- Code --\nx=1\n-- Outputs --\n[1] output_type: stream" : String) ≠
      "Cell type: code\n-- Code --\nx=1\n-- Outputs --\n[1] output_type: stream\n" := by
  constructor
  · decide
  · decide

/-- C6: rendering is a deterministic pure function of the input document:
equal inputs give byte-identical output text, and rendering the same input
twice gives the same text both times. -/
theorem render_deterministic (name : String) (nb nb2 : Notebook) (h : nb = nb2) :
    convert_notebook name nb = convert_notebook name nb2 ∧
    convert_notebook name nb = convert_notebook name nb := by
  subst h
  exact ⟨rfl, rfl⟩

theorem render_deterministic_witness :
    convert_notebook "nb.ipynb" (Notebook.mk none (some [])) =
      convert_notebook "nb.ipynb" (Notebook.mk none (some [])) :=
  (render_deterministic "nb.ipynb" (Notebook.mk none (some []))
    (Notebook.mk none (some [])) rfl).1

theorem run_batch_ok_decomp (env : Env) (overwrite : Bool)
    (hmk : env.makedirsResult = Except.ok ()) :
    ∀ paths, run_batch env overwrite paths =
      BatchResult.mk (paths.map (process_msg env overwrite)) paths none := by
  intro paths
  induction paths with
  | nil => rfl
  | cons p rest ih => simp [run_batch, process_one, hmk, ih]

/-- C7 (amended): when the output directory can be created, a conversion
failure on one file is caught at the per-file boundary, reported as
`Failed to convert <path>: <message>`, and the files before and after are
processed exactly as they otherwise would be — no conversion error aborts
the batch; but a failure of the per-file `os.makedirs` call, which lies
outside the try/except, is not caught: it aborts the batch at the first
iteration, before any remaining file is processed. -/
theorem per_file_failure_isolated (env : Env) (overwrite : Bool)
    (before after : List String) (p msg : String)
    (hfail : env.convertResult p = Except.error msg)
    (hnoskip : (env.txtExists (env.txtPath p) && !overwrite) = false) :
    (env.makedirsResult = Except.ok () →
      run_batch env overwrite (before ++ p :: after) =
        BatchResult.mk
          ((run_batch env overwrite before).messages ++
            ("Failed to convert " ++ p ++ ": " ++ msg) ::
              (run_batch env overwrite after).messages)
          (before ++ p :: after) none) ∧
    (∀ e q rest2, env.makedirsResult = Except.error e →
      run_batch env overwrite (q :: rest2) = BatchResult.mk [] [q] (some e)) := by
  constructor
  · intro hmk
    simp [run_batch_ok_decomp env overwrite hmk, process_msg, hfail, hnoskip]
  · intro e q rest2 hmk
    simp [run_batch, process_one, hmk]

theorem per_file_failure_isolated_witness :
    run_batch (Env.mk (Except.ok ()) (fun _ => Except.error "boom")
        (fun _ => false) (fun s => s ++ ".txt")) false
        ["a.ipynb", "b.ipynb", "c.ipynb"] =
      BatchResult.mk
        ((run_batch (Env.mk (Except.ok ()) (fun _ => Except.error "boom")
            (fun _ => false) (fun s => s ++ ".txt")) false ["a.ipynb"]).messages ++
          ("Failed to convert " ++ "b.ipynb" ++ ": " ++ "boom") ::
            (run_batch (Env.mk (Except.ok ()) (fun _ => Except.error "boom")
              (fun _ => false) (fun s => s ++ ".txt")) false ["c.ipynb"]).messages)
        (["a.ipynb"] ++ "b.ipynb" :: ["c.ipynb"]) none :=
  (per_file_failure_isolated
    (Env.mk (Except.ok ()) (fun _ => Except.error "boom") (fun _ => false)
      (fun s => s ++ ".txt"))
    false ["a.ipynb"] ["c.ipynb"] "b.ipynb" "boom" rfl rfl).1 rfl

/-- C7 counterexample: with an output directory that cannot be created
(`os.makedirs` raises), a batch of two files aborts at the first
iteration: nothing is reported (no `Failed to convert` message), the
second file is never reached, and the uncaught exception propagates — a
per-file error that does abort the overall batch. -/
theorem per_file_failure_isolated_cex :
    run_batch (Env.mk (Except.error "Permission denied")
        (fun _ => Except.ok ()) (fun _ => false) (fun s => s ++ ".txt")) false
        ["a.ipynb", "b.ipynb"] =
      BatchResult.mk [] ["a.ipynb"] (some "Permission denied") := rfl

theorem main_fn_exit (fs : FS) (env : Env) (pathArg : String) (overwrite : Bool) :
    (main_fn fs env pathArg overwrite).1 =
      if find_ipynb_files fs pathArg = [] then 2
      else
        match env.makedirsResult with
        | Except.ok _ => 0
        | Except.error _ => 1 := by
  by_cases h : find_ipynb_files fs pathArg = []
  · simp [main_fn, h]
  · obtain ⟨q, rest, hq⟩ := List.exists_cons_of_ne_nil h
    cases hmk : env.makedirsResult with
    | ok u =>
      cases u
      simp [main_fn, hq, h, run_batch_ok_decomp env overwrite hmk]
    | error e =>
      simp [main_fn, hq, h, run_batch, process_one, hmk]

/-- C8 (amended): the exit code is 2 exactly when no candidate `.ipynb`
file is discovered, in which case only the discovery notice is printed and
the loop iterates over no file, so nothing is written; when candidates are
found, the exit code is 0 whenever the output directory can be created —
even if files are skipped or individually fail — but an uncaught
`os.makedirs` failure makes the process exit with code 1 instead. -/
theorem exit_code_policy (fs : FS) (env : Env) (pathArg : String) (overwrite : Bool) :
    ((main_fn fs env pathArg overwrite).1 = 2 ↔ find_ipynb_files fs pathArg = []) ∧
    (find_ipynb_files fs pathArg = [] →
      main_fn fs env pathArg overwrite =
        (2, ["No .ipynb files found at: " ++ pathArg], [])) ∧
    (find_ipynb_files fs pathArg ≠ [] → env.makedirsResult = Except.ok () →
      (main_fn fs env pathArg overwrite).1 = 0) ∧
    (find_ipynb_files fs pathArg ≠ [] →
      (∃ e, env.makedirsResult = Except.error e) →
      (main_fn fs env pathArg overwrite).1 = 1) := by
  refine ⟨?_, ?_, ?_, ?_⟩
  · rw [main_fn_exit]
    by_cases h : find_ipynb_files fs pathArg = []
    · simp [h]
    · cases hmk : env.makedirsResult <;> simp [h, hmk]
  · intro h
    simp [main_fn, h]
  · intro h hmk
    rw [main_fn_exit]
    simp [h, hmk]
  · rintro h ⟨e, hmk⟩
    rw [main_fn_exit]
    simp [h, hmk]

theorem exit_code_policy_witness :
    (main_fn (FS.mk (fun p => p == "a.ipynb") (fun _ => false) (fun _ => []))
        (Env.mk (Except.ok ()) (fun _ => Except.ok ()) (fun _ => false)
          (fun s => s ++ ".txt"))
        "a.ipynb" false).1 = 0 :=
  (exit_code_policy (FS.mk (fun p => p == "a.ipynb") (fun _ => false) (fun _ => []))
    (Env.mk (Except.ok ()) (fun _ => Except.ok ()) (fun _ => false)
      (fun s => s ++ ".txt"))
    "a.ipynb" false).2.2.1 (by decide) rfl

/-- C8 counterexample: a candidate file is found, yet with an uncreatable
output directory the uncaught `os.makedirs` exception makes the process
exit with code 1, not 0. -/
theorem exit_code_policy_cex :
    find_ipynb_files (FS.mk (fun p => p == "a.ipynb") (fun _ => false)
        (fun _ => [])) "a.ipynb" = ["a.ipynb"] ∧
    (main_fn (FS.mk (fun p => p == "a.ipynb") (fun _ => false) (fun _ => []))
        (Env.mk (Except.error "Permission denied") (fun _ => Except.ok ())
          (fun _ => false) (fun s => s ++ ".txt"))
        "a.ipynb" false).1 = 1 := by
  constructor
  · decide
  · decide

end IpynbToTxt
